import Mathlib

/-!
Shallow embedding of `main.py`, a FastAPI + Motor (MongoDB) backend for game
assets and a leaderboard.  Strings are modelled as `List Char`, file bodies as
`List Nat` (bytes), MongoDB documents as association lists from key to a JSON
value.  Machine behaviour of the Python fragments used by the handlers
(`re.sub`, `str.strip`, `base64.b64encode`, pydantic validation, the
`try/except Exception/finally` control flow) is translated faithfully from the
source; the character classes of Python's regex `\w` and `\s` are modelled on
the ASCII range.
-/

/-! ## Sanitizer (`sanitize_input`, main.py lines 43-45) -/

/-- Python regex `\w` restricted to ASCII: letters, digits, underscore. -/
def pyWord (c : Char) : Bool := c.isAlphanum || c == '_'

/-- Python regex `\s` (equivalently `str.isspace`) restricted to ASCII:
space, tab, newline, carriage return, vertical tab, form feed and the
separator control characters `\x1c`-`\x1f`. -/
def pySpace (c : Char) : Bool :=
  c == ' ' || c == '\t' || c == '\n' || c == '\r' || c == '\x0b' || c == '\x0c' ||
  c == '\x1c' || c == '\x1d' || c == '\x1e' || c == '\x1f'

/-- Python `str.strip()`: remove whitespace from both ends
(right end via `List.rdropWhile`). -/
def stripChars (s : List Char) : List Char :=
  List.dropWhile pySpace (List.rdropWhile pySpace s)

/-- `sanitize_input` (main.py line 45):
`re.sub(r"[^\w\s]", "", input_str).strip()` — delete every character that is
neither `\w` nor `\s`, then strip whitespace from both ends. -/
def sanitize_input (s : List Char) : List Char :=
  stripChars (s.filter (fun c => pyWord c || pySpace c))

/-- The character class `[A-Za-z0-9_ ]` named by the specification sentence
about `sanitize` (claim-side definition, for comparison with the code). -/
def specSanitizeChar (c : Char) : Bool :=
  ('A' ≤ c && c ≤ 'Z') || ('a' ≤ c && c ≤ 'z') || ('0' ≤ c && c ≤ '9') ||
  c == '_' || c == ' '

/-! ## Base64 (`base64.b64encode`, used at main.py lines 78 and 117) -/

/-- The standard base64 alphabet. -/
def b64Alphabet : List Char :=
  "ABCDEFGHIJKLMNOPQRSTUVWXYZabcdefghijklmnopqrstuvwxyz0123456789+/".data

/-- Digit of the base64 alphabet (input is a 6-bit value). -/
def b64Char (n : Nat) : Char := b64Alphabet.getD n '='

/-- `base64.b64encode` on a byte list, producing the padded text encoding. -/
def b64encode : List Nat → List Char
  | [] => []
  | [a] => [b64Char (a / 4), b64Char (a % 4 * 16), '=', '=']
  | [a, b] => [b64Char (a / 4), b64Char (a % 4 * 16 + b / 16), b64Char (b % 16 * 4), '=']
  | a :: b :: c :: rest =>
    b64Char (a / 4) :: b64Char (a % 4 * 16 + b / 16) ::
    b64Char (b % 16 * 4 + c / 64) :: b64Char (c % 64) :: b64encode rest

/-! ## Documents and the database -/

/-- A JSON/BSON value as used by the handlers (strings, integers, and the
`None` produced by `dict.get` on a missing key). -/
inductive Value where
  | null : Value
  | str : List Char → Value
  | int : Int → Value
deriving DecidableEq

/-- A MongoDB document: an association list from field name to value. -/
abbrev Doc := List (List Char × Value)

/-- Python `doc.get(k)`: the value under `k`, or `None` when absent. -/
def dictGet (d : Doc) (k : List Char) : Value :=
  (List.lookup k d).getD Value.null

def filenameKey : List Char := "filename".data
def contentKey : List Char := "content".data
def descriptionKey : List Char := "description".data
def playerNameKey : List Char := "player_name".data
def scoreKey : List Char := "score".data
def messageKey : List Char := "message".data
def idKey : List Char := "id".data

/-- The three collections of the database
(`db.Sprites`, `db.Audio`, `db.Scores`). -/
structure DB where
  Sprites : List Doc
  Audio : List Doc
  Scores : List Doc
deriving DecidableEq

def emptyDB : DB := ⟨[], [], []⟩

/-! ## Request and response shapes -/

/-- A decoded multipart file upload (FastAPI `UploadFile`): the declared
filename and content type, and the bytes returned by `await file.read()`. -/
structure UploadFile where
  filename : List Char
  content_type : List Char
  content : List Nat
deriving DecidableEq

/-- The pydantic `PlayerScore` payload (main.py lines 32-41):
a string `player_name` and an integer `score`. -/
structure PlayerScore where
  player_name : List Char
  score : Int
deriving DecidableEq

/-- One character of the pydantic pattern class `[a-zA-Z0-9_ ]`
(main.py line 36). -/
def nameCharOK (c : Char) : Bool :=
  ('a' ≤ c && c ≤ 'z') || ('A' ≤ c && c ≤ 'Z') || ('0' ≤ c && c ≤ '9') ||
  c == '_' || c == ' '

/-- The regex `^[a-zA-Z0-9_ ]+$` of the `StringConstraints` pattern:
nonempty, and every character in the class. -/
def playerNamePattern (s : List Char) : Bool :=
  !s.isEmpty && s.all nameCharOK

/-- The full pydantic validation of `PlayerScore`: the pattern together with
`min_length=1` and `max_length=50` (main.py lines 36-38).  FastAPI runs this
before the handler body; a failure is reported as a 422 response. -/
def validatePlayerScore (p : PlayerScore) : Bool :=
  playerNamePattern p.player_name &&
  decide (1 ≤ p.player_name.length) && decide (p.player_name.length ≤ 50)

/-- An `HTTPException(status, detail)`. -/
structure HttpExc where
  status : Nat
  detail : List Char
deriving DecidableEq

/-- Python `str(e)` on a starlette `HTTPException`:
the string `f"{status_code}: {detail}"`. -/
def strOfHTTPException (e : HttpExc) : List Char :=
  Nat.toDigits 10 e.status ++ ": ".data ++ e.detail

/-- The `except Exception as e: raise HTTPException(500, f"Server error: {str(e)}")`
clause of every upload handler, applied to an `HTTPException` raised inside
the `try` block (which, being an `Exception`, is caught by the clause). -/
def exceptTo500 (e : HttpExc) : HttpExc :=
  ⟨500, "Server error: ".data ++ strOfHTTPException e⟩

/-- A handler outcome: the response document, or an `HTTPException`. -/
abbrev HResp := Except HttpExc Doc

def isSuccess : HResp → Bool
  | .ok _ => true
  | .error _ => false

/-! ## File-upload configuration (main.py lines 49-51) -/

def ALLOWED_SPRITE_TYPES : List (List Char) := ["image/png".data, "image/jpeg".data]

def ALLOWED_AUDIO_TYPES : List (List Char) := ["audio/mpeg".data, "audio/wav".data]

def MAX_FILE_SIZE : Nat := 5 * 1024 * 1024

/-! ## Upload handlers (main.py lines 62-155)

Each handler is split into the body of its `try` block and a wrapper applying
the `except Exception` clause.  The model's `insert_one` always succeeds (the
external store's own failures are outside the embedding); its generated id is
the index of the new document, rendered in decimal for the `str(...)` of the
response. -/

/-- The `try` block of `upload_sprite` (main.py lines 63-87): content-type
allow-list check, size check, filename sanitization, base64 encoding, insert
into `Sprites`. -/
def upload_sprite_try (file : UploadFile) (db : DB) : Except HttpExc (Doc × DB) :=
  if file.content_type ∈ ALLOWED_SPRITE_TYPES then
    if MAX_FILE_SIZE < file.content.length then
      .error ⟨400, "File exceeds 5MB limit".data⟩
    else
      let clean_filename := sanitize_input file.filename
      let encoded := b64encode file.content
      let sprite_doc : Doc :=
        [(filenameKey, .str clean_filename),
         (contentKey, .str encoded),
         (descriptionKey, .str "Sprite uploaded via Base64".data)]
      .ok ([(messageKey, .str "Sprite uploaded".data),
            (idKey, .str (Nat.toDigits 10 db.Sprites.length))],
           { db with Sprites := db.Sprites ++ [sprite_doc] })
  else
    .error ⟨400, "Only PNG/JPEG images allowed".data⟩

/-- `upload_sprite` (main.py lines 62-92): the `try` block with the
`except Exception` clause, which also catches the `HTTPException(400, ...)`
raised by the validation checks and re-raises it as a 500. -/
def upload_sprite (file : UploadFile) (db : DB) : HResp × DB :=
  match upload_sprite_try file db with
  | .ok (resp, db2) => (.ok resp, db2)
  | .error e => (.error (exceptTo500 e), db)

/-- The `try` block of `upload_audio` (main.py lines 102-124). -/
def upload_audio_try (file : UploadFile) (db : DB) : Except HttpExc (Doc × DB) :=
  if file.content_type ∈ ALLOWED_AUDIO_TYPES then
    if MAX_FILE_SIZE < file.content.length then
      .error ⟨400, "File exceeds 5MB limit".data⟩
    else
      let clean_filename := sanitize_input file.filename
      let encoded := b64encode file.content
      let audio_doc : Doc :=
        [(filenameKey, .str clean_filename),
         (contentKey, .str encoded),
         (descriptionKey, .str "Audio uploaded via Base64".data)]
      .ok ([(messageKey, .str "Audio uploaded".data),
            (idKey, .str (Nat.toDigits 10 db.Audio.length))],
           { db with Audio := db.Audio ++ [audio_doc] })
  else
    .error ⟨400, "Only MP3/WAV audio allowed".data⟩

/-- `upload_audio` (main.py lines 101-129), with the same `except` wrapping
as `upload_sprite`. -/
def upload_audio (file : UploadFile) (db : DB) : HResp × DB :=
  match upload_audio_try file db with
  | .ok (resp, db2) => (.ok resp, db2)
  | .error e => (.error (exceptTo500 e), db)

/-- The handler body of `upload_score` (main.py lines 138-155), run on an
already-validated payload: sanitize the player name and insert into `Scores`.
Nothing in its `try` block can raise in the model, so the `except` clause is
unreachable here. -/
def upload_score (score : PlayerScore) (db : DB) : HResp × DB :=
  let sanitized_name := sanitize_input score.player_name
  let score_doc : Doc :=
    [(playerNameKey, .str sanitized_name), (scoreKey, .int score.score)]
  (.ok [(messageKey, .str "Score recorded".data),
        (idKey, .str (Nat.toDigits 10 db.Scores.length))],
   { db with Scores := db.Scores ++ [score_doc] })

/-- The full `POST /upload_score/` pipeline: FastAPI/pydantic validation runs
before the handler; a failing payload yields a 422 response and the handler
body (and hence any database operation) never runs.  The 422 body text is
generated by the framework and modelled by a fixed placeholder. -/
def post_upload_score (p : PlayerScore) (db : DB) : HResp × DB :=
  if validatePlayerScore p then upload_score p db
  else (.error ⟨422, "request body failed validation".data⟩, db)

/-! ## List endpoints (main.py lines 164-224)

Each GET handler maps the documents of one collection to response items via
`doc.get`.  The only possible exception in the source is a storage failure,
which is outside the model, so the handlers here are total. -/

/-- The response of a list endpoint: the single JSON key and the item list. -/
structure ListResponse where
  key : List Char
  data : List Doc
deriving DecidableEq

/-- Response item of `get_sprites` and `get_audio` (main.py lines 172-175 and
194-197): only `filename` and `description` are copied out of the document. -/
def assetListItem (doc : Doc) : Doc :=
  [(filenameKey, dictGet doc filenameKey),
   (descriptionKey, dictGet doc descriptionKey)]

/-- Response item of `get_scores` (main.py lines 216-219). -/
def scoreListItem (doc : Doc) : Doc :=
  [(playerNameKey, dictGet doc playerNameKey),
   (scoreKey, dictGet doc scoreKey)]

/-- `GET /get_sprites/` (main.py lines 165-176). -/
def get_sprites (db : DB) : ListResponse :=
  ⟨"sprites".data, db.Sprites.map assetListItem⟩

/-- `GET /get_audio/` (main.py lines 187-198). -/
def get_audio (db : DB) : ListResponse :=
  ⟨"audio".data, db.Audio.map assetListItem⟩

/-- `GET /get_scores/` (main.py lines 209-220). -/
def get_scores (db : DB) : ListResponse :=
  ⟨"scores".data, db.Scores.map scoreListItem⟩

/-! ## Connection lifecycle (`get_db` / `shutdown_db`, main.py lines 19-26)

`get_db` constructs a fresh `AsyncIOMotorClient`.  `shutdown_db`, despite its
comment "Close MongoDB connection", constructs another fresh
`AsyncIOMotorClient` and closes that new one.  The state below tracks which
client objects have been created and which of them are still open. -/

/-- Client bookkeeping: the next fresh client id and the ids of clients
created but not closed. -/
structure ConnState where
  nextId : Nat
  openIds : List Nat
deriving DecidableEq

/-- `AsyncIOMotorClient(...)`: create a fresh client, initially open. -/
def newClient (s : ConnState) : Nat × ConnState :=
  (s.nextId, ⟨s.nextId + 1, s.openIds ++ [s.nextId]⟩)

/-- `client.close()` on a given client. -/
def closeClient (c : Nat) (s : ConnState) : ConnState :=
  ⟨s.nextId, s.openIds.erase c⟩

/-- `get_db` (main.py lines 19-21): opens a fresh client and hands it to the
request. -/
def get_db_conn (s : ConnState) : Nat × ConnState := newClient s

/-- `shutdown_db` (main.py lines 24-26): constructs a brand-new
`AsyncIOMotorClient` and closes that one; the client passed around by the
request is not an argument and is not touched. -/
def shutdown_db_conn (s : ConnState) : ConnState :=
  let (c, s2) := newClient s
  closeClient c s2

/-- The connection trace every handler performs, on every exit path: the
`try` block begins with `get_db()` and the `finally` clause runs
`shutdown_db()`.  Returns the client id the request used together with the
final state. -/
def request_conn_trace (s : ConnState) : Nat × ConnState :=
  let (dbClient, s2) := get_db_conn s
  (dbClient, shutdown_db_conn s2)

/-! ## Environment and client construction (main.py lines 19-21)

Modelled from the driver semantics (pymongo/motor): `MongoClient(None)`
falls back to the default host `localhost:27017`, and `get_database()` with
no name returns the default database of the connection URI, raising
`ConfigurationError` when the URI defines none (as is the case when the
constructor argument was `None`). -/

/-- A constructed Motor client: the target it would connect to and the
default database carried by its URI, if any. -/
structure MotorClient where
  target : List Char
  defaultDatabase : Option (List Char)
deriving DecidableEq

def pymongoDefaultHost : List Char := "localhost:27017".data

/-- Skip an URI up to the slash that ends the `scheme://authority` part. -/
def afterAuthority : List Char → List Char
  | [] => []
  | '/' :: '/' :: rest => rest.dropWhile (fun c => c != '/')
  | _ :: rest => afterAuthority rest

/-- The default database named by a MongoDB URI: the path segment after the
authority, up to `?` or a further `/`; absent when the path is empty. -/
def uriDefaultDatabase (s : List Char) : Option (List Char) :=
  match afterAuthority s with
  | [] => none
  | _ :: path =>
    let name := path.takeWhile (fun c => c != '?' && c != '/')
    if name.isEmpty then none else some name

/-- `AsyncIOMotorClient(conn)`: with `None` (the result of `os.getenv` on an
absent variable) the client targets the library default host and its URI has
no default database. -/
def AsyncIOMotorClient : Option (List Char) → MotorClient
  | none => ⟨pymongoDefaultHost, none⟩
  | some s => ⟨s, uriDefaultDatabase s⟩

/-- `client.get_database()`: the default database, or the
`ConfigurationError` message pymongo raises when there is none. -/
def client_get_database (c : MotorClient) : Except (List Char) (List Char) :=
  match c.defaultDatabase with
  | none => .error "No default database name defined or provided.".data
  | some d => .ok d

/-- The process environment. -/
abbrev Env := List (List Char × List Char)

def MONGODB_CONNECTION_STRING : List Char := "MONGODB_CONNECTION_STRING".data

/-- `os.getenv`. -/
def os_getenv (env : Env) (k : List Char) : Option (List Char) :=
  List.lookup k env

/-- `get_db` (main.py lines 19-21) as seen by a handler: build the client
from the environment variable and take its default database. -/
def get_db (env : Env) : Except (List Char) (List Char) :=
  client_get_database (AsyncIOMotorClient (os_getenv env MONGODB_CONNECTION_STRING))

/-- `upload_sprite` including the `db = get_db()` call that opens its `try`
block: an exception from `get_db` is caught by the same `except Exception`
clause (here `str(e)` is the `ConfigurationError` message), so the request
answers 500 and no document is written. -/
def upload_sprite_env (env : Env) (file : UploadFile) (db : DB) : HResp × DB :=
  match get_db env with
  | .error msg => (.error ⟨500, "Server error: ".data ++ msg⟩, db)
  | .ok _ => upload_sprite file db

deriving instance DecidableEq for Except

/-! ## Concrete data used to instantiate the theorems -/

/-- A stored sprite document that does carry encoded binary content. -/
def demoAssetDoc : Doc :=
  [(filenameKey, .str "hero".data),
   (contentKey, .str "QUJD".data),
   (descriptionKey, .str "Sprite uploaded via Base64".data)]

/-- A database whose collections all hold a document. -/
def demoDB : DB :=
  ⟨[demoAssetDoc], [demoAssetDoc], [[(playerNameKey, .str "p1".data), (scoreKey, .int 3)]]⟩

/-- The score payload of the round-trip example. -/
def bobPayload : PlayerScore := ⟨"Bob".data, 42⟩

/-- The list-scores item the round-trip example expects. -/
def bobItem : Doc := [(playerNameKey, .str "Bob".data), (scoreKey, .int 42)]

/-! ## Lemmas about the sanitizer -/

/-- A character surfacing as the head of a `dropWhile` run fails the
predicate. -/
theorem head?_dropWhile_false (p : Char → Bool) (l : List Char) (c : Char)
    (h : (List.dropWhile p l).head? = some c) : p c = false := by
  induction l with
  | nil => simp [List.dropWhile] at h
  | cons a t ih =>
    by_cases hp : p a
    · rw [List.dropWhile_cons_of_pos hp] at h
      exact ih h
    · rw [List.dropWhile_cons_of_neg hp] at h
      simp at h
      simp at hp
      rw [← h]
      exact hp

/-- `dropWhile` keeps the last element of its input. -/
theorem getLast?_dropWhile_eq (p : Char → Bool) (l : List Char) (c : Char)
    (h : (List.dropWhile p l).getLast? = some c) : l.getLast? = some c := by
  obtain ⟨t, ht⟩ := List.dropWhile_suffix (l := l) p
  have hne : List.dropWhile p l ≠ [] := by
    intro hnil
    rw [hnil] at h
    simp at h
  rw [← ht, List.getLast?_append_of_ne_nil _ hne]
  exact h

/-- The last character left by `rdropWhile` fails the predicate. -/
theorem getLast?_rdropWhile_false (p : Char → Bool) (l : List Char) (c : Char)
    (h : (List.rdropWhile p l).getLast? = some c) : p c = false := by
  have hne : List.rdropWhile p l ≠ [] := by
    intro hnil
    rw [hnil] at h
    simp at h
  have hnot := List.rdropWhile_last_not p l hne
  rw [List.getLast?_eq_getLast_of_ne_nil hne] at h
  have hc : (List.rdropWhile p l).getLast hne = c := by injection h
  rw [hc] at hnot
  simpa using hnot

/-- A stripped string does not start with whitespace. -/
theorem head?_stripChars_false (l : List Char) (c : Char)
    (h : (stripChars l).head? = some c) : pySpace c = false :=
  head?_dropWhile_false _ _ _ h

/-- A stripped string does not end with whitespace. -/
theorem getLast?_stripChars_false (l : List Char) (c : Char)
    (h : (stripChars l).getLast? = some c) : pySpace c = false :=
  getLast?_rdropWhile_false _ _ _ (getLast?_dropWhile_eq _ _ _ h)

/-- Stripping only removes characters. -/
theorem mem_stripChars (l : List Char) (c : Char) (h : c ∈ stripChars l) : c ∈ l :=
  (List.rdropWhile_prefix pySpace l).subset ((List.dropWhile_suffix pySpace).subset h)

/-- Every character of a sanitized string is a word character or
whitespace. -/
theorem mem_sanitize_keep (s : List Char) (c : Char) (h : c ∈ sanitize_input s) :
    (pyWord c || pySpace c) = true :=
  (List.mem_filter.mp (mem_stripChars _ _ h)).2

/-- A string with no whitespace at either end is fixed by `stripChars`. -/
theorem stripChars_eq_self (l : List Char)
    (hh : ∀ c, l.head? = some c → pySpace c = false)
    (hl : ∀ c, l.getLast? = some c → pySpace c = false) :
    stripChars l = l := by
  unfold stripChars
  have h1 : List.rdropWhile pySpace l = l := by
    rw [List.rdropWhile_eq_self_iff]
    intro hne
    have h2 := hl _ (List.getLast?_eq_getLast_of_ne_nil hne)
    simp [h2]
  rw [h1]
  cases l with
  | nil => rfl
  | cons a t =>
    have ha := hh a rfl
    rw [List.dropWhile_cons_of_neg]
    simp [ha]

/-- `stripChars` is idempotent. -/
theorem stripChars_idem (l : List Char) : stripChars (stripChars l) = stripChars l :=
  stripChars_eq_self _ (head?_stripChars_false l) (getLast?_stripChars_false l)

/-- The pydantic validation of `PlayerScore`, spelt out: the name is
nonempty, drawn from the pattern's character class, and of length 1-50. -/
theorem validatePlayerScore_iff (p : PlayerScore) :
    validatePlayerScore p = true ↔
      (p.player_name ≠ [] ∧ (∀ c ∈ p.player_name, nameCharOK c = true) ∧
       1 ≤ p.player_name.length ∧ p.player_name.length ≤ 50) := by
  simp [validatePlayerScore, playerNamePattern, List.all_eq_true, List.isEmpty_iff,
    and_assoc]

/-! ## The claims -/

/-- C1: the source intends to reject a sprite upload whose content type is
outside the allow-list, or whose body exceeds 5,242,880 bytes, with an HTTP
400 (and the audio endpoint likewise) — but the `HTTPException(400, ...)` it
raises is caught by the handler's own blanket `except Exception` clause and
re-raised as a 500 whose detail embeds the original message.  No document is
inserted on any of these paths (the database value is returned unchanged).
This theorem evaluates the embedded handlers on those paths. -/
theorem upload_rejection_surfaces_as_500 (db : DB) (f : UploadFile) :
    (f.content_type ∉ ALLOWED_SPRITE_TYPES →
        upload_sprite f db
          = (.error ⟨500, "Server error: 400: Only PNG/JPEG images allowed".data⟩, db))
  ∧ (f.content_type ∈ ALLOWED_SPRITE_TYPES → MAX_FILE_SIZE < f.content.length →
        upload_sprite f db
          = (.error ⟨500, "Server error: 400: File exceeds 5MB limit".data⟩, db))
  ∧ (f.content_type ∉ ALLOWED_AUDIO_TYPES →
        upload_audio f db
          = (.error ⟨500, "Server error: 400: Only MP3/WAV audio allowed".data⟩, db)) := by
  refine ⟨?_, ?_, ?_⟩
  · intro hnot
    simp only [upload_sprite, upload_sprite_try, if_neg hnot, Prod.mk.injEq]
    exact ⟨by decide, trivial⟩
  · intro hin hbig
    simp only [upload_sprite, upload_sprite_try, if_pos hin, if_pos hbig, Prod.mk.injEq]
    exact ⟨by decide, trivial⟩
  · intro hnot
    simp only [upload_audio, upload_audio_try, if_neg hnot, Prod.mk.injEq]
    exact ⟨by decide, trivial⟩

/-- Witness for C1: a `image/gif` upload is answered with status 500 (not
400) and the store is unchanged. -/
theorem upload_rejection_surfaces_as_500_case :
    upload_sprite ⟨"a.gif".data, "image/gif".data, []⟩ emptyDB
      = (.error ⟨500, "Server error: 400: Only PNG/JPEG images allowed".data⟩, emptyDB) :=
  (upload_rejection_surfaces_as_500 emptyDB ⟨"a.gif".data, "image/gif".data, []⟩).1 (by decide)

/-- C2 (counterexample): the claim says `sanitize(S)` contains only
characters of the class `[A-Za-z0-9_ ]`, but a tab between word characters
survives `re.sub(r"[^\w\s]", "", s).strip()` — `\t` matches `\s` and is
interior, so `strip` keeps it — and a tab is not in the claimed class. -/
theorem sanitize_claim_charset_counterexample :
    '\t' ∈ sanitize_input "a\tb".data ∧ specSanitizeChar '\t' = false := by
  decide

/-- C2 (amended): every character of `sanitize_input s` is a word character
or whitespace (`\w` or `\s`, not the narrower class `[A-Za-z0-9_ ]`), and the
result has no leading or trailing whitespace. -/
theorem sanitize_output_charset (s : List Char) :
    (∀ c ∈ sanitize_input s, (pyWord c || pySpace c) = true)
  ∧ (∀ c, (sanitize_input s).head? = some c → pySpace c = false)
  ∧ (∀ c, (sanitize_input s).getLast? = some c → pySpace c = false) :=
  ⟨fun c hc => mem_sanitize_keep s c hc,
   fun c hc => head?_stripChars_false _ c hc,
   fun c hc => getLast?_stripChars_false _ c hc⟩

/-- Witness for C2 (amended), at the input `" ab "`, whose sanitized form is
`"ab"`. -/
theorem sanitize_output_charset_case :
    (pyWord 'a' || pySpace 'a') = true ∧ pySpace 'a' = false ∧ pySpace 'b' = false :=
  ⟨(sanitize_output_charset " ab ".data).1 'a' (by decide),
   (sanitize_output_charset " ab ".data).2.1 'a' (by decide),
   (sanitize_output_charset " ab ".data).2.2 'b' (by decide)⟩

/-- C3: `sanitize_input` is idempotent — re-sanitizing removes nothing (the
filter keeps every remaining character) and re-stripping a stripped string
changes nothing. -/
theorem sanitize_input_idempotent (s : List Char) :
    sanitize_input (sanitize_input s) = sanitize_input s := by
  have hfilter : (sanitize_input s).filter (fun c => pyWord c || pySpace c) = sanitize_input s :=
    List.filter_eq_self.mpr (fun a ha => mem_sanitize_keep s a ha)
  show stripChars ((sanitize_input s).filter (fun c => pyWord c || pySpace c)) = sanitize_input s
  rw [hfilter]
  show stripChars (stripChars (s.filter (fun c => pyWord c || pySpace c))) = _
  exact stripChars_idem _

/-- C4: a score submission is accepted exactly when the player name is
nonempty, drawn from `[A-Za-z0-9_ ]`, and 1-50 characters long (the score,
an arbitrary integer, is unrestricted); a payload failing validation is
answered 422 before the handler body runs, leaving the store untouched —
a status distinct from the 500 server error. -/
theorem score_validation_iff (p : PlayerScore) (db : DB) :
    (isSuccess (post_upload_score p db).1 = true ↔
      (p.player_name ≠ [] ∧ (∀ c ∈ p.player_name, nameCharOK c = true) ∧
       1 ≤ p.player_name.length ∧ p.player_name.length ≤ 50))
  ∧ (validatePlayerScore p = false →
      (post_upload_score p db).1 = .error ⟨422, "request body failed validation".data⟩ ∧
      (post_upload_score p db).2 = db) := by
  constructor
  · by_cases hv : validatePlayerScore p = true
    · simp [post_upload_score, hv, upload_score, isSuccess]
      exact (validatePlayerScore_iff p).mp hv
    · have hfail : isSuccess (post_upload_score p db).1 = false := by
        simp [post_upload_score, hv, isSuccess]
      constructor
      · intro htrue
        rw [hfail] at htrue
        exact absurd htrue (by decide)
      · intro hspec
        exact absurd ((validatePlayerScore_iff p).mpr hspec) hv
  · intro hv
    simp [post_upload_score, hv]

/-- Witness for C4: the payload with player name `"Al!ce"` is rejected with
a 422 and no document is written. -/
theorem score_validation_iff_case :
    (post_upload_score ⟨"Al!ce".data, 10⟩ emptyDB).1
        = .error ⟨422, "request body failed validation".data⟩ ∧
    (post_upload_score ⟨"Al!ce".data, 10⟩ emptyDB).2 = emptyDB :=
  (score_validation_iff ⟨"Al!ce".data, 10⟩ emptyDB).2 (by decide)

/-- C5: no item produced by any of the three list endpoints carries a
`content` field, for every database — in particular for stored documents
that do carry encoded binary content. -/
theorem list_endpoints_omit_content (db : DB) :
    (∀ item ∈ (get_sprites db).data, List.lookup contentKey item = none)
  ∧ (∀ item ∈ (get_audio db).data, List.lookup contentKey item = none)
  ∧ (∀ item ∈ (get_scores db).data, List.lookup contentKey item = none) := by
  refine ⟨?_, ?_, ?_⟩ <;>
  · intro item hitem
    simp only [get_sprites, get_audio, get_scores, List.mem_map] at hitem
    obtain ⟨doc, hdoc, rfl⟩ := hitem
    rfl

/-- Witness for C5: the item listed for a stored sprite document that does
contain base64 content has no `content` field. -/
theorem list_endpoints_omit_content_case :
    List.lookup contentKey (assetListItem demoAssetDoc) = none :=
  (list_endpoints_omit_content demoDB).1 (assetListItem demoAssetDoc) (by decide)

/-- C6: submitting `player_name "Bob", score 42` succeeds, and the
subsequent list-scores call includes the item `player_name "Bob", score 42`,
from any initial database state. -/
theorem score_round_trip (db : DB) :
    isSuccess (post_upload_score bobPayload db).1 = true ∧
    bobItem ∈ (get_scores (post_upload_score bobPayload db).2).data := by
  have hv : validatePlayerScore bobPayload = true := by decide
  constructor
  · simp [post_upload_score, hv, upload_score, isSuccess]
  · simp only [post_upload_score, hv, if_pos, upload_score, get_scores, List.map_append]
    refine List.mem_append_right _ ?_
    decide

/-- C7: uploading a 10 KB JPEG named `sprite!.png` succeeds and stores a
document whose filename is the sanitized `spritepng` (both `!` and `.` fall
outside `\w`/`\s` and are removed), whose content is the base64 encoding of
the uploaded bytes, and whose description is the fixed constant; the
subsequent list-sprites call shows the sanitized filename with that
description. -/
theorem sprite_upload_round_trip (bytes : List Nat) (db : DB)
    (h : bytes.length = 10240) :
    isSuccess (upload_sprite ⟨"sprite!.png".data, "image/jpeg".data, bytes⟩ db).1 = true
  ∧ (upload_sprite ⟨"sprite!.png".data, "image/jpeg".data, bytes⟩ db).2.Sprites
      = db.Sprites ++
        [[(filenameKey, .str "spritepng".data),
          (contentKey, .str (b64encode bytes)),
          (descriptionKey, .str "Sprite uploaded via Base64".data)]]
  ∧ [(filenameKey, .str "spritepng".data),
     (descriptionKey, .str "Sprite uploaded via Base64".data)]
      ∈ (get_sprites (upload_sprite ⟨"sprite!.png".data, "image/jpeg".data, bytes⟩ db).2).data := by
  have htype : ("image/jpeg".data ∈ ALLOWED_SPRITE_TYPES) := by decide
  have hsize : ¬ (MAX_FILE_SIZE < bytes.length) := by rw [h]; decide
  have hsan : sanitize_input "sprite!.png".data = "spritepng".data := by decide
  refine ⟨?_, ?_, ?_⟩
  · simp only [upload_sprite, upload_sprite_try, if_pos htype, if_neg hsize]
    rfl
  · simp only [upload_sprite, upload_sprite_try, if_pos htype, if_neg hsize, hsan]
  · simp only [upload_sprite, upload_sprite_try, if_pos htype, if_neg hsize, hsan,
      get_sprites, List.map_append]
    refine List.mem_append_right _ ?_
    simp only [List.map_cons, List.map_nil, List.mem_cons]
    exact Or.inl rfl

/-- Witness for C7: a 10,240-byte body (all zero bytes) satisfies the length
hypothesis and the upload succeeds. -/
theorem sprite_upload_round_trip_case :
    (List.replicate 10240 0).length = 10240 ∧
    isSuccess (upload_sprite
      ⟨"sprite!.png".data, "image/jpeg".data, List.replicate 10240 0⟩ emptyDB).1 = true :=
  ⟨by rw [List.length_replicate], (sprite_upload_round_trip (List.replicate 10240 0) emptyDB
    (by rw [List.length_replicate])).1⟩

/-- C8: the source never closes the connection a request opens.  `get_db`
creates a client, and the `finally` clause's `shutdown_db` creates a second,
fresh client and closes only that one — so after the request's connection
trace, the client handed to the request (id 0, from `get_db`) is still the
open one.  This holds on every exit path, since the trace modelled is the
one the `try/finally` performs unconditionally. -/
theorem request_leaves_connection_open :
    (request_conn_trace ⟨0, []⟩).2.openIds = [(request_conn_trace ⟨0, []⟩).1] ∧
    (request_conn_trace ⟨0, []⟩).1 = (get_db_conn ⟨0, []⟩).1 := by decide

/-- C9: when `MONGODB_CONNECTION_STRING` is absent from the environment,
every request fails at runtime: `AsyncIOMotorClient(None)` carries no
default database, `get_database()` raises `ConfigurationError`, and the
handler answers 500 with that message, writing nothing — the system does not
silently proceed against a default connection target. -/
theorem missing_env_fails_request (env : Env) (f : UploadFile) (db : DB)
    (h : os_getenv env MONGODB_CONNECTION_STRING = none) :
    upload_sprite_env env f db
      = (.error ⟨500, "Server error: No default database name defined or provided.".data⟩, db) := by
  simp only [upload_sprite_env, get_db, h, AsyncIOMotorClient, client_get_database,
    Prod.mk.injEq]
  exact ⟨by decide, trivial⟩

/-- Witness for C9: the empty environment lacks the variable, and a sprite
upload is answered with the 500 `ConfigurationError` message. -/
theorem missing_env_fails_request_case :
    upload_sprite_env [] ⟨"a.png".data, "image/png".data, []⟩ emptyDB
      = (.error ⟨500, "Server error: No default database name defined or provided.".data⟩,
         emptyDB) :=
  missing_env_fails_request [] ⟨"a.png".data, "image/png".data, []⟩ emptyDB (by decide)

/-- C10: for every payload passing validation, the stored `player_name` is
`sanitize_input` of the submitted name, which can differ from it; the
all-space name `" "` passes validation (space is in the pattern class,
length 1) yet sanitizes to the empty string, so the stored record is not
guaranteed the 1-character minimum. -/
theorem stored_name_is_sanitized :
    (∀ (p : PlayerScore) (db : DB), validatePlayerScore p = true →
        (post_upload_score p db).2.Scores
          = db.Scores ++ [[(playerNameKey, .str (sanitize_input p.player_name)),
                           (scoreKey, .int p.score)]])
  ∧ validatePlayerScore ⟨" ".data, 7⟩ = true
  ∧ sanitize_input " ".data = [] := by
  refine ⟨?_, by decide, by decide⟩
  intro p db hv
  simp [post_upload_score, hv, upload_score]

/-- Witness for C10: the accepted all-space submission stores an empty
player name. -/
theorem stored_name_is_sanitized_case :
    validatePlayerScore ⟨" ".data, 7⟩ = true ∧
    (post_upload_score ⟨" ".data, 7⟩ emptyDB).2.Scores
      = [[(playerNameKey, .str []), (scoreKey, .int 7)]] := by
  refine ⟨by decide, ?_⟩
  have h := stored_name_is_sanitized.1 ⟨" ".data, 7⟩ emptyDB (by decide)
  simpa using h
